import Mathlib

/-!
Verification development for the yahoofsapi repository (yahoo.py).

The Python module has two classes: `Scraper`, which validates requested
sub-resources / filters and assembles Yahoo fantasy-sports API URLs, and
`Parser`, which walks returned XML trees into flat records.  Stateful
pieces (HTTP transport, credential files) are kept abstract; the URL
construction, validation and tree projection logic is embedded as pure
executable functions below, one Lean definition per Python method.
-/

namespace Yahoofsapi

/-- Stand-ins for the Python exceptions the module can raise.
`valueError msg` models `raise ValueError(msg)`; `attributeError` models
an `AttributeError` from calling a method on `None`; `typeError` models a
`TypeError` (e.g. joining or iterating `None`); `unboundLocal` models an
`UnboundLocalError` from reading a never-assigned local variable. -/
inductive Err where
  | valueError (msg : String)
  | attributeError
  | typeError
  | unboundLocal
deriving Repr, DecidableEq

instance exceptDecEq {ε α : Type} [DecidableEq ε] [DecidableEq α] :
    DecidableEq (Except ε α) := fun a b =>
  match a, b with
  | .ok x, .ok y =>
      if h : x = y then isTrue (by rw [h]) else isFalse (by simp [h])
  | .error x, .error y =>
      if h : x = y then isTrue (by rw [h]) else isFalse (by simp [h])
  | .ok _, .error _ => isFalse (by simp)
  | .error _, .ok _ => isFalse (by simp)

/-- `str(x)` for an optional int, as Python renders `None` in f-strings. -/
def pyStrOptInt : Option Int → String
  | none => "None"
  | some n => toString n

/-- Python truthiness of an optional list (`if xs:`). -/
def truthyOptList {α : Type} (o : Option (List α)) : Bool :=
  match o with
  | some l => !l.isEmpty
  | none => false

/-- Python truthiness of an optional int (`if n:`). -/
def truthyOptInt (o : Option Int) : Bool :=
  match o with
  | some n => n != 0
  | none => false

/-- Python truthiness of an optional string (`if s:`). -/
def truthyOptStr (o : Option String) : Bool :=
  match o with
  | some s => !s.isEmpty
  | none => false

/-- Is the first list a prefix of the second? -/
def listIsPre : List Char → List Char → Bool
  | [], _ => true
  | _ :: _, [] => false
  | a :: as, b :: bs => a == b && listIsPre as bs

/-- Does the pattern occur as a contiguous run inside the haystack? -/
def hasSubstr : List Char → List Char → Bool
  | [], pat => pat.isEmpty
  | c :: t, pat => listIsPre pat (c :: t) || hasSubstr t pat

/-- Python `pat in s` substring test. -/
def occursIn (pat s : String) : Bool := hasSubstr s.data pat.data

/-- Python `s.startswith(pre)`. -/
def strStartsWith (s pre : String) : Bool := listIsPre pre.data s.data

/-- A Python dict of filters, insertion-ordered association list.
Python dict keys are unique; theorems that need this carry a
`Nodup` hypothesis on the keys. -/
abbrev Filters := List (String × String)

/-- `filters[k]` lookup for a filter dict (keys are unique in Python). -/
def dictGet (l : Filters) (k : String) : String :=
  ((l.find? (fun p => p.1 == k)).map Prod.snd).getD ""

/-- `set(filters.keys()) <= set(allowed)` from the Python validation. -/
def keysSubset (f : Filters) (allowed : List String) : Bool :=
  f.all (fun p => allowed.contains p.1)

/-- Python string comparison on the underlying code-point sequences:
lexicographic, shorter prefix first. -/
def charListLe : List Char → List Char → Bool
  | [], _ => true
  | _ :: _, [] => false
  | a :: as, b :: bs =>
      if a.toNat < b.toNat then true
      else if b.toNat < a.toNat then false
      else charListLe as bs

/-- Python `a <= b` on strings (code-point lexicographic order, the order
`sorted()` uses). -/
def strLe (a b : String) : Bool := charListLe a.data b.data

/-- `Scraper._filtstr`: `",".join("{}={}".format(k, filters[k]) for k in
sorted(filters.keys()))`. -/
def filtstr (filters : Filters) : String :=
  String.intercalate ","
    (((filters.map Prod.fst).insertionSort (fun a b => strLe a b = true)).map
      (fun k => k ++ "=" ++ dictGet filters k))

/-- `self.fantasy_uri` set in `Scraper.__init__`. -/
def fantasy_uri : String := "https://fantasysports.yahooapis.com/fantasy/v2"

/-- `Scraper._url`: base URL for a resource. -/
def url (resource : String) : String := fantasy_uri ++ "/" ++ resource

/-- `Scraper._keystr`: comma-joined keys. -/
def keystr (keys : List String) : String := String.intercalate "," keys

/-- `Scraper._league_key`: `f"{self.game_key}.l.{league_id}"`.  The game
key is optional because `_game_key` can produce `None` (see `game_key`). -/
def league_key (gk : Option Int) (league_id : Int) : String :=
  pyStrOptInt gk ++ ".l." ++ toString league_id

/-- The `game_key_d` lookup table inside `Scraper._game_key`. -/
def game_key_d : List (String × List (Int × Int)) :=
  [("nba", [(2017, 375), (2018, 385)]), ("nfl", [(2018, 380)])]

/-- `dict.get` on the sport level of `game_key_d`. -/
def sportGet (l : List (String × List (Int × Int))) (k : String) :
    Option (List (Int × Int)) :=
  (l.find? (fun p => p.1 == k)).map Prod.snd

/-- `dict.get` on the season level of `game_key_d`. -/
def seasonGet (l : List (Int × Int)) (k : Int) : Option Int :=
  (l.find? (fun p => p.1 == k)).map Prod.snd

/-- `Scraper._game_key`: `game_key_d.get(self.sport).get(self.yahoo_season)`.
When the sport is absent, `.get` returns `None` and the second `.get`
raises `AttributeError`; when only the season is absent, the inner `.get`
silently returns `None`. -/
def game_key (sport : String) (yahoo_season : Int) : Except Err (Option Int) :=
  match sportGet game_key_d sport with
  | none => .error Err.attributeError
  | some d => .ok (seasonGet d yahoo_season)

/-- `Scraper.game_subresources`. -/
def game_subresources : List String :=
  ["metadata", "leagues", "players", "game_weeks", "stat_categories",
   "position_types", "roster_positions"]

/-- `Scraper.games_subresources`. -/
def games_subresources : List String :=
  ["metadata", "leagues", "players", "game_weeks", "stat_categories",
   "position_types", "roster_positions", "teams"]

/-- `Scraper.games_filters`. -/
def games_filters : List String :=
  ["is_available", "game_types", "game_codes", "seasons"]

/-- `Scraper.league_subresources`. -/
def league_subresources : List String :=
  ["metadata", "settings", "standings", "scoreboard", "teams", "players",
   "draftresults", "transactions"]

/-- `Scraper.player_subresources`. -/
def player_subresources : List String :=
  ["metadata", "stats", "ownership", "percent_owned", "draft_analysis"]

/-- `Scraper.players_filters`. -/
def players_filters : List String :=
  ["position", "status", "search", "sort", "sort_type", "sort_season",
   "sort_date", "start", "count"]

/-- `Scraper.roster_subresources`. -/
def roster_subresources : List String := ["players"]

/-- `Scraper.team_subresources` (also `teams_subresources`). -/
def team_subresources : List String :=
  ["metadata", "stats", "standings", "roster", "draftresults", "matchups"]

/-- `Scraper.transaction_filters` (also `transactions_filters`). -/
def transaction_filters : List String := ["type", "types", "team_key", "count"]

/-- `Scraper.transaction_subresources` (also `transactions_subresources`). -/
def transaction_subresources : List String := ["metadata", "players"]

/-- `Scraper.game`: validates the sub-resource, requires keys for the
`leagues` / `players` sub-resources, and composes the game-resource URL.
The result is the URL handed to `query`. -/
def game (gk : Option Int) (subresource : String) (keys : Option (List String)) :
    Except Err String :=
  if !(game_subresources.contains subresource) then
    .error (Err.valueError "invalid game subresource")
  else if subresource == "leagues" || subresource == "players" then
    if !(truthyOptList keys) then
      .error (Err.valueError "cannot get subresource without keys")
    else if subresource == "leagues" then
      .ok (url "game" ++ "/" ++ pyStrOptInt gk ++ "/leagues;league_keys=" ++
        String.intercalate "," (keys.getD []))
    else
      .ok (url "game" ++ "/" ++ pyStrOptInt gk ++ "/players;player_keys=" ++
        String.intercalate "," (keys.getD []))
  else
    .ok (url "game" ++ "/" ++ pyStrOptInt gk ++ "/" ++ subresource)

/-- `Scraper.games`: validates the sub-resource; when a truthy filter dict
is supplied and its keys pass the whitelist the URL is `games;{filters}`
(the sub-resource is not appended on that branch); otherwise the
sub-resource branches apply.  `",".join(None)` on the `leagues` /
`players` branch with `keys=None` is a `TypeError`. -/
def games (gk : Option Int) (subresource : String) (filters : Option Filters)
    (keys : Option (List String)) : Except Err String :=
  if !(games_subresources.contains subresource) then
    .error (Err.valueError "invalid game subresource")
  else if truthyOptList filters then
    if keysSubset (filters.getD []) games_filters then
      .ok (url "games" ++ ";" ++ filtstr (filters.getD []))
    else
      .error (Err.valueError "games invalid filters")
  else if subresource == "leagues" then
    match keys with
    | none => .error Err.typeError
    | some ks =>
        .ok (url "games" ++ ";game_keys=" ++ pyStrOptInt gk ++
          "/leagues;league_keys=" ++ String.intercalate "," ks)
  else if subresource == "players" then
    match keys with
    | none => .error Err.typeError
    | some ks =>
        .ok (url "games" ++ ";game_keys=" ++ pyStrOptInt gk ++
          "/players;player_keys=" ++ String.intercalate "," ks)
  else
    .ok (url "games" ++ ";game_keys=" ++ pyStrOptInt gk ++ "/" ++ subresource)

/-- `Scraper.league_free_agents`: composes the free-agent URL.  The Python
method performs no sub-resource validation at all, so this is a total
function returning the URL directly. -/
def league_free_agents_url (gk : Option Int) (league_id : Int) (start : Int)
    (subresource status sortp sort_type : String) : String :=
  url "league" ++ "/" ++ league_key gk league_id ++ "/" ++ subresource ++
    ";status=" ++ status ++ ";sort=" ++ sortp ++ ";sort_type=" ++ sort_type ++
    ";start=" ++ toString start

/-- `Scraper.players`: no sub-resource validation; a truthy filter dict is
serialized only when its keys pass the whitelist, otherwise `filt_str`
silently stays empty; the addressing modes are tried in the fixed order
league_id, league_ids, team_key, team_keys, player_keys, and when all are
falsy the local `url` is never assigned, so `self.query(url)` raises
`UnboundLocalError`. -/
def players (gk : Option Int) (league_id : Option Int)
    (league_ids : Option (List Int)) (team_key : Option String)
    (team_keys : Option (List String)) (player_keys : Option (List String))
    (subresource : String) (filters : Option Filters) : Except Err String :=
  let filt_str :=
    match filters with
    | some f => if !f.isEmpty && keysSubset f players_filters then filtstr f else ""
    | none => ""
  if truthyOptInt league_id then
    .ok (url "league" ++ "/" ++ league_key gk (league_id.getD 0) ++
      "/players;" ++ filt_str ++ "/" ++ subresource)
  else if truthyOptList league_ids then
    .ok (url "leagues" ++ ";league_keys=" ++
      String.intercalate "," ((league_ids.getD []).map (league_key gk)) ++
      "/players;" ++ filt_str ++ "/" ++ subresource)
  else if truthyOptStr team_key then
    .ok (url "team" ++ "/" ++ team_key.getD "" ++ "/players;" ++ filt_str ++
      "/" ++ subresource)
  else if truthyOptList team_keys then
    .ok (url "teams" ++ ";" ++ String.intercalate "," (team_keys.getD []) ++
      "/players;" ++ filt_str ++ "/" ++ subresource)
  else if truthyOptList player_keys then
    .ok (url "players" ++ ";player_keys=" ++
      String.intercalate "," (player_keys.getD []) ++ ";" ++ filt_str ++
      "/" ++ subresource)
  else .error Err.unboundLocal

/-- `Scraper.roster`: validates the sub-resource; when `roster_date` is
truthy the Python code appends the string literal `";date={roster_date}"`
(the format call is missing the `f` prefix, so the placeholder is not
substituted). -/
def roster (team_key subresource : String) (roster_date : Option String) :
    Except Err String :=
  if !(roster_subresources.contains subresource) then
    .error (Err.valueError "invalid roster subresource")
  else
    let url0 := url "team" ++ "/" ++ team_key ++ "/roster/" ++ subresource
    if truthyOptStr roster_date then .ok (url0 ++ ";date=\x7broster_date\x7d")
    else .ok url0

/-- `Scraper.teams`: validates the sub-resource, then tries the addressing
modes in the fixed order league_id, team_keys, my_team, raising only when
all three are falsy. -/
def teams (gk : Option Int) (league_id : Option Int)
    (team_keys : Option (List String)) (my_team : Bool) (subresource : String) :
    Except Err String :=
  if !(team_subresources.contains subresource) then
    .error (Err.valueError "invalid teams subresource")
  else if truthyOptInt league_id then
    .ok (url "league" ++ "/" ++ league_key gk (league_id.getD 0) ++ "/teams/" ++
      subresource)
  else if truthyOptList team_keys then
    .ok (url "teams" ++ ";team_keys=" ++
      String.intercalate "," (team_keys.getD []) ++ "/" ++ subresource)
  else if my_team then
    .ok (url "users" ++ ";use_login=1/teams/" ++ subresource)
  else .error (Err.valueError "need to specify league_id or team_keys or my_team")

/-- `Scraper.transactions`: validates the sub-resource; a truthy filter
dict must pass the whitelist or a `ValueError` is raised. -/
def transactions (gk : Option Int) (league_id : Int) (subresource : String)
    (filters : Option Filters) : Except Err String :=
  let lk := league_key gk league_id
  if !(transaction_subresources.contains subresource) then
    .error (Err.valueError "invalid transactions subresource")
  else if truthyOptList filters then
    if keysSubset (filters.getD []) transaction_filters then
      .ok (url "league" ++ "/" ++ lk ++ "/transactions;" ++
        filtstr (filters.getD []) ++ "/" ++ subresource)
    else
      .error (Err.valueError "games invalid filters")
  else
    .ok (url "league" ++ "/" ++ lk ++ "/transactions/" ++ subresource)

/-- `Scraper.user`: composes the user-resource URL; no validation. -/
def user_url (gk : Option Int) (subresource : String) : String :=
  "https://fantasysports.yahooapis.com/fantasy/v2/users;use_login=1/games;game_keys=" ++
    pyStrOptInt gk ++ "/" ++ subresource

/-- `Scraper.users`: composes the users-collection URL; no validation. -/
def users_url (subresource : String) : String :=
  url "users" ++ ";use_login=1/" ++ subresource

/-- The final path segment of a URL (text after the last slash). -/
def lastSegment (s : String) : String :=
  String.mk ((s.data.reverse.takeWhile (fun c => c != '/')).reverse)

/-- Does the result hold a URL whose final path segment begins with the
given sub-resource name? -/
def okLastStartsWith (r : Except Err String) (sub : String) : Bool :=
  match r with
  | .ok u => strStartsWith (lastSegment u) sub
  | .error _ => false

/-! ### The `query` dispatch (for the retry-on-auth-failure claim)

`Scraper.__init__` stores `self.response_format = {"format": response_format}`
(a dict), and `Scraper.query` tests `if self.response_format == "json"` — a
dict compared against a string.  We model the two Python values and Python
equality between them explicitly. -/

/-- A Python value as far as the `query` comparison is concerned. -/
inductive PyVal where
  | str (s : String)
  | dict (entries : List (String × String))
deriving Repr, DecidableEq

/-- Python `==` between the modelled values: a dict never equals a str.
(Dict-to-dict equality in Python ignores insertion order; the naive list
comparison here is only ever used across the two constructors.) -/
def pyEq : PyVal → PyVal → Bool
  | .str a, .str b => a == b
  | .dict a, .dict b => a == b
  | _, _ => false

/-- The body the transport's `get_json` returns: whether `"error" in content`
and, if so, `content["error"]["description"]`. -/
structure JsonResp where
  hasError : Bool
  description : String
deriving Repr, DecidableEq

/-- What a `query` call produces. -/
inductive QueryOutcome where
  /-- The `else` branch: the raw `self.get(...)` response is returned. -/
  | rawResponse (body : String)
  /-- The JSON branch refreshed credentials and returned the second
  `get_json` result (the single retry). -/
  | jsonRetry (second : JsonResp)
  /-- The JSON branch fell through without a `return` (Python returns
  `None`). -/
  | noneReturn
deriving Repr, DecidableEq

/-- `Scraper.query`, abstracted over the transport: `first` and `second`
are the bodies `get_json` would return on a first and second call, and
`rawBody` is what `self.get` would return.  The second component counts
`_refresh_credentials` invocations. -/
def query (response_format : String) (first second : JsonResp)
    (rawBody : String) : QueryOutcome × Nat :=
  if pyEq (PyVal.dict [("format", response_format)]) (PyVal.str "json") then
    if first.hasError then
      if occursIn "Please provide valid credentials" first.description then
        (QueryOutcome.jsonRetry second, 1)
      else (QueryOutcome.noneReturn, 0)
    else (QueryOutcome.noneReturn, 0)
  else (QueryOutcome.rawResponse rawBody, 0)

/-! ### The `Parser` class

Responses are XML; `Parser` methods strip the default namespace, parse the
text with `xml.etree.ElementTree` and walk the tree.  The tree walking is
embedded over an explicit element type; the text-to-tree step (namespace
strip plus `ET.fromstring`) is the transport-facing boundary and stays
outside the embedding. -/

/-- An `xml.etree.ElementTree.Element`: tag, `.text` (`None` when the
element has no text) and the list of child elements. -/
inductive Element where
  | mk (tag : String) (text : Option String) (children : List Element)

/-- The element's tag. -/
def Element.tag : Element → String
  | .mk t _ _ => t

/-- The element's `.text`. -/
def Element.text : Element → Option String
  | .mk _ x _ => x

/-- The element's child list. -/
def Element.children : Element → List Element
  | .mk _ _ c => c

mutual

/-- All proper descendants of an element, in document order. -/
def Element.descendants : Element → List Element
  | .mk _ _ cs => descList cs

/-- Descendants-or-self of each element of a list, in document order. -/
def descList : List Element → List Element
  | [] => []
  | c :: rest => c :: Element.descendants c ++ descList rest

end

/-- `element.find(tag)`: first direct child with the given tag, or `None`. -/
def findChild (e : Element) (t : String) : Option Element :=
  e.children.find? (fun c => c.tag == t)

/-- `root.findall(".//tag")`: every descendant with the given tag, in
document order. -/
def findallTag (e : Element) (t : String) : List Element :=
  e.descendants.filter (fun d => d.tag == t)

/-- `element.find(".//t1/t2")`: the first `t2` child of a `t1` descendant,
in document order. -/
def findDeepChild (e : Element) (t1 t2 : String) : Option Element :=
  (((e.descendants.filter (fun d => d.tag == t1)).map
      (fun d => d.children.filter (fun c => c.tag == t2))).flatten).head?

/-- A parsed record: a Python dict from field name to `.text` value,
insertion-ordered. -/
abbrev Record := List (String × Option String)

/-- Python dict assignment `d[k] = v`: replaces the value in place when the
key exists, otherwise appends. -/
def recordSet (r : Record) (k : String) (v : Option String) : Record :=
  if r.any (fun p => p.1 == k) then
    r.map (fun p => if p.1 == k then (k, v) else p)
  else r ++ [(k, v)]

/-- `element.find(t)` followed by a member access: `None` raises
`AttributeError`. -/
def getEl (o : Option Element) : Except Err Element :=
  match o with
  | some e => .ok e
  | none => .error Err.attributeError

/-- Extract a string that Python would go on to use where `None` raises the
given error. -/
def getTextOr (o : Option String) (e : Err) : Except Err String :=
  match o with
  | some s => .ok s
  | none => .error e

/-- Decimal digits to a natural number; `none` on a non-digit. -/
def digitsToNatAux : List Char → Nat → Option Nat
  | [], acc => some acc
  | c :: t, acc =>
      if 48 ≤ c.toNat && c.toNat ≤ 57 then
        digitsToNatAux t (acc * 10 + (c.toNat - 48))
      else none

/-- A non-empty all-digit run as a natural number. -/
def digitsToNat : List Char → Option Nat
  | [] => none
  | l => digitsToNatAux l 0

/-- Python `int(s)` on a stat id (canonical decimal text, optional minus
sign). -/
def pyInt (s : String) : Option Int :=
  match s.data with
  | [] => none
  | c :: rest =>
      if c == '-' then (digitsToNat rest).map (fun n => -(n : Int))
      else (digitsToNat (c :: rest)).map (fun n => (n : Int))

/-- Python `s.upper()` (per-character uppercase). -/
def pyUpper (s : String) : String := String.mk (s.data.map Char.toUpper)

/-- The `Parser._stat_ids` catalog built in `Parser.__init__`. -/
def stat_ids : List (Int × String) :=
  [(0, "games_played"), (5, "fgp"), (7, "ftm"), (10, "tpm"), (12, "pts"),
   (15, "reb"), (16, "ast"), (17, "stl"), (18, "blk"), (19, "tov")]

/-- `Parser._stat_name`: `self._stat_ids.get(stat_id)`. -/
def stat_name (stat_id : Int) : Option String :=
  (stat_ids.find? (fun p => p.1 == stat_id)).map Prod.snd

/-- Sequential `Except`-valued map, matching a Python `for` loop that
appends to a list and lets exceptions escape at the first failing item. -/
def exceptMapM {α β : Type} (f : α → Except Err β) : List α → Except Err (List β)
  | [] => .ok []
  | x :: t =>
      match f x with
      | .error e => .error e
      | .ok y =>
          match exceptMapM f t with
          | .error e => .error e
          | .ok ys => .ok (y :: ys)

/-- Sequential `Except`-valued fold, matching a Python `for` loop that
updates a dict and lets exceptions escape at the first failing item. -/
def exceptFoldl {α σ : Type} (f : σ → α → Except Err σ) (acc : σ) :
    List α → Except Err σ
  | [] => .ok acc
  | x :: t =>
      match f acc x with
      | .error e => .error e
      | .ok acc2 => exceptFoldl f acc2 t

/-- The body of the identity part shared by `Parser.league_free_agents` and
`Parser.player_stats`: builds the
`player_key / player_name / eligible_positions / team` fields of one
`player` element, raising as Python does when a fixed relative path is
missing. -/
def parsePlayerIdentity (p : Element) : Except Err Record := do
  let pkEl ← getEl (findChild p "player_key")
  let nameEl ← getEl (findChild p "name")
  let fullEl ← getEl (findChild nameEl "full")
  let d0 : Record := [("player_key", pkEl.text), ("player_name", fullEl.text)]
  let posEl ← getEl (findChild p "eligible_positions")
  let positions := posEl.children.filter (fun c => c.tag == "position")
  let posTexts ← exceptMapM (fun pos => getTextOr pos.text Err.typeError) positions
  let d1 := recordSet d0 "eligible_positions"
    (some (String.intercalate ", " posTexts))
  let abbrEl ← getEl (findChild p "editorial_team_abbr")
  let abbrTxt ← getTextOr abbrEl.text Err.attributeError
  pure (recordSet d1 "team" (some (pyUpper abbrTxt)))

/-- One iteration of the `for stat in player.find(".//player_stats/stats")`
loop of `Parser.player_stats`. -/
def statStep (acc : Record) (stat : Element) : Except Err Record := do
  let sidEl ← getEl (findChild stat "stat_id")
  let sidTxt ← getTextOr sidEl.text Err.typeError
  let sid ← match pyInt sidTxt with
    | some n => Except.ok n
    | none => Except.error (Err.valueError "invalid literal for int")
  match stat_name sid with
  | some nm => do
      let vEl ← getEl (findChild stat "value")
      pure (recordSet acc nm vEl.text)
  | none => pure acc

/-- The per-player body of `Parser.league_free_agents` (identity fields
only). -/
def parsePlayerLFA (p : Element) : Except Err Record :=
  parsePlayerIdentity p

/-- The per-player body of `Parser.player_stats`: identity fields followed
by the stats loop.  Iterating `player.find(".//player_stats/stats")` when
the path is absent is iterating `None`, a `TypeError`. -/
def parsePlayerPS (p : Element) : Except Err Record := do
  let d ← parsePlayerIdentity p
  let statsEl ←
    match findDeepChild p "player_stats" "stats" with
    | some e => Except.ok e
    | none => Except.error Err.typeError
  exceptFoldl statStep d statsEl.children

/-- `Parser.self.data`: the per-entity-kind store of the most recently
parsed result sets. -/
abbrev ParserData := List (String × List Record)

/-- Python dict assignment on `self.data`. -/
def dataSet (d : ParserData) (k : String) (v : List Record) : ParserData :=
  if d.any (fun p => p.1 == k) then
    d.map (fun p => if p.1 == k then (k, v) else p)
  else d ++ [(k, v)]

/-- The pure part of `Parser.league_free_agents`: walk every `.//player`
element into a record, failing the whole call at the first structural
error. -/
def league_free_agents_core (root : Element) : Except Err (List Record) :=
  exceptMapM parsePlayerLFA (findallTag root "player")

/-- `Parser.league_free_agents` including the `self.data` update, which
Python only reaches when the loop completed without raising. -/
def runLeagueFreeAgents (d : ParserData) (root : Element) :
    ParserData × Except Err (List Record) :=
  match league_free_agents_core root with
  | .ok vals => (dataSet d "league_free_agents" vals, .ok vals)
  | .error e => (d, .error e)

/-- The pure part of `Parser.player_stats`. -/
def player_stats_core (root : Element) : Except Err (List Record) :=
  exceptMapM parsePlayerPS (findallTag root "player")

/-- `Parser.player_stats` including the `self.data` update. -/
def runPlayerStats (d : ParserData) (root : Element) :
    ParserData × Except Err (List Record) :=
  match player_stats_core root with
  | .ok vals => (dataSet d "player_stats" vals, .ok vals)
  | .error e => (d, .error e)

/-! ### Fixture builders and projection helpers used by the theorems -/

/-- A `stat` element with a numeric id and a value, as emitted inside a
`player_stats/stats` block. -/
def mkStat (sid : Int) (v : String) : Element :=
  .mk "stat" none
    [.mk "stat_id" (some (toString sid)) [], .mk "value" (some v) []]

/-- A `player` element with the identity children the parser reads and an
arbitrary list of stat children. -/
def mkPlayer (pk full abbr : String) (pos : List String)
    (sts : List Element) : Element :=
  .mk "player" none
    [.mk "player_key" (some pk) [],
     .mk "name" none [.mk "full" (some full) []],
     .mk "eligible_positions" none
       (pos.map (fun s => Element.mk "position" (some s) [])),
     .mk "editorial_team_abbr" (some abbr) [],
     .mk "player_stats" none [.mk "stats" none sts]]

/-- A response document wrapping a single player. -/
def mkDoc (p : Element) : Element :=
  .mk "fantasy_content" none [.mk "league" none [.mk "players" none [p]]]

/-- A response document wrapping two players. -/
def mkDoc₂ (p q : Element) : Element :=
  .mk "fantasy_content" none [.mk "league" none [.mk "players" none [p, q]]]

/-- The stat id a `stat` element carries, when present and numeric. -/
def statIdOf (st : Element) : Option Int :=
  ((findChild st "stat_id").bind Element.text).bind pyInt

/-- What one `stat` child contributes to the record: the resolved catalog
name paired with the verbatim `value` text, or nothing when the id is
absent from the catalog. -/
def statProj (st : Element) : Option (String × Option String) := do
  let sid ← statIdOf st
  let nm ← stat_name sid
  let vEl ← findChild st "value"
  pure (nm, vEl.text)

/-- Well-formedness of one `stat` child as the claims assume it: the id
parses, and when the id resolves in the catalog a `value` child exists. -/
def wfStat (st : Element) : Bool :=
  match statIdOf st with
  | none => false
  | some sid => !(stat_name sid).isSome || (findChild st "value").isSome

/-- The resolved catalog name of a stat child, if any. -/
def resolvedName (st : Element) : Option String :=
  (statIdOf st).bind stat_name

/-- An element or one of its descendants carries the given tag. -/
def subtreeHasTag (e : Element) (t : String) : Bool :=
  e.tag == t || (e.descendants.any (fun d => d.tag == t))

/-- A fixture player element that has a `player_key` but no `name` child. -/
def namelessPlayer : Element :=
  .mk "player" none
    [.mk "player_key" (some "380.p.4725") [],
     .mk "eligible_positions" none [.mk "position" (some "PG") []],
     .mk "editorial_team_abbr" (some "bos") []]

/-- A fixture document holding one well-formed player and one player with
no `name/full` path. -/
def lfaBadDoc : Element :=
  mkDoc₂ (mkPlayer "380.p.1" "Good Player" "mil" ["PG"] []) namelessPlayer

/-! ## Helper lemmas about the Python string order and dict lookups -/

/-- Unfolding characterization of `charListLe` on two cons cells. -/
theorem charListLe_cons_iff {a b : Char} {as bs : List Char} :
    charListLe (a :: as) (b :: bs) = true ↔
      a.toNat < b.toNat ∨ (a.toNat = b.toNat ∧ charListLe as bs = true) := by
  rw [show charListLe (a :: as) (b :: bs) =
      (if a.toNat < b.toNat then true
       else if b.toNat < a.toNat then false
       else charListLe as bs) from rfl]
  by_cases h1 : a.toNat < b.toNat
  · simp [h1]
  · by_cases h2 : b.toNat < a.toNat
    · have hne : a.toNat ≠ b.toNat := by omega
      simp [h1, h2, hne]
    · have heq : a.toNat = b.toNat := by omega
      simp [h1, h2, heq]

/-- The Python string order is total. -/
theorem charListLe_total : ∀ a b : List Char,
    charListLe a b = true ∨ charListLe b a = true
  | [], _ => Or.inl rfl
  | _ :: _, [] => Or.inr rfl
  | a :: as, b :: bs => by
      rcases Nat.lt_trichotomy a.toNat b.toNat with h | h | h
      · exact Or.inl (charListLe_cons_iff.mpr (Or.inl h))
      · rcases charListLe_total as bs with ht | ht
        · exact Or.inl (charListLe_cons_iff.mpr (Or.inr ⟨h, ht⟩))
        · exact Or.inr (charListLe_cons_iff.mpr (Or.inr ⟨h.symm, ht⟩))
      · exact Or.inr (charListLe_cons_iff.mpr (Or.inl h))

/-- The Python string order is transitive. -/
theorem charListLe_trans : ∀ a b c : List Char,
    charListLe a b = true → charListLe b c = true → charListLe a c = true
  | [], _, _ => fun _ _ => rfl
  | _ :: _, [], _ => fun h _ => by cases h
  | _ :: _, _ :: _, [] => fun _ h => by cases h
  | a :: as, b :: bs, c :: cs => fun h1 h2 => by
      rcases charListLe_cons_iff.mp h1 with hl | ⟨he, ht⟩ <;>
        rcases charListLe_cons_iff.mp h2 with hl2 | ⟨he2, ht2⟩
      · exact charListLe_cons_iff.mpr (Or.inl (Nat.lt_trans hl hl2))
      · exact charListLe_cons_iff.mpr (Or.inl (he2 ▸ hl))
      · exact charListLe_cons_iff.mpr (Or.inl (he ▸ hl2))
      · exact charListLe_cons_iff.mpr
          (Or.inr ⟨he.trans he2, charListLe_trans as bs cs ht ht2⟩)

/-- The Python string order is antisymmetric. -/
theorem charListLe_antisymm : ∀ a b : List Char,
    charListLe a b = true → charListLe b a = true → a = b
  | [], [] => fun _ _ => rfl
  | [], _ :: _ => fun _ h => by cases h
  | _ :: _, [] => fun h _ => by cases h
  | a :: as, b :: bs => fun h1 h2 => by
      rcases charListLe_cons_iff.mp h1 with hl | ⟨he, ht⟩ <;>
        rcases charListLe_cons_iff.mp h2 with hl2 | ⟨he2, ht2⟩
      · omega
      · omega
      · omega
      · have hc : a = b := Char.eq_of_val_eq (UInt32.toNat.inj he)
        have hrest := charListLe_antisymm as bs ht ht2
        rw [hc, hrest]

instance strLeIsTotal : IsTotal String (fun a b => strLe a b = true) :=
  ⟨fun a b => charListLe_total a.data b.data⟩

instance strLeIsTrans : IsTrans String (fun a b => strLe a b = true) :=
  ⟨fun a b c => charListLe_trans a.data b.data c.data⟩

instance strLeIsAntisymm : IsAntisymm String (fun a b => strLe a b = true) :=
  ⟨fun a b h1 h2 => by
    have h := charListLe_antisymm a.data b.data h1 h2
    cases a; cases b; exact congrArg String.mk h⟩

/-- `find?` is the head of `filter`. -/
theorem find?_eq_head_filter {α : Type} (p : α → Bool) :
    ∀ l : List α, l.find? p = (l.filter p).head?
  | [] => rfl
  | x :: t => by
      cases h : p x
      · rw [List.find?_cons_of_neg _ (by simp [h]),
          List.filter_cons_of_neg (by simp [h])]
        exact find?_eq_head_filter p t
      · rw [List.find?_cons_of_pos _ h, List.filter_cons_of_pos (by simp [h])]
        rfl

/-- In a dict with unique keys, at most one entry matches a key. -/
theorem filter_keyEq_length_le_one {l : Filters}
    (hnd : (l.map Prod.fst).Nodup) (k : String) :
    (l.filter (fun p => p.1 == k)).length ≤ 1 := by
  induction l with
  | nil => simp
  | cons a t ih =>
      simp only [List.map_cons, List.nodup_cons] at hnd
      by_cases h : a.1 == k
      · have hk : a.1 = k := by simpa using h
        have hnil : t.filter (fun p => p.1 == k) = [] := by
          apply List.filter_eq_nil_iff.mpr
          intro p hp
          have hmem : p.1 ∈ t.map Prod.fst := List.mem_map_of_mem _ hp
          simp only [beq_iff_eq]
          intro hpk
          apply hnd.1
          rw [hk, ← hpk]
          exact hmem
        simp [List.filter_cons, h, hnil]
      · rw [List.filter_cons_of_neg (by simp [h])]
        exact ih hnd.2

/-- Permutations of lists of length at most one are equal. -/
theorem perm_length_le_one_eq {α : Type} {l1 l2 : List α} (h : l1.Perm l2)
    (hl : l1.length ≤ 1) : l1 = l2 := by
  match l1, h, hl with
  | [], h, _ => exact (h.symm.eq_nil).symm
  | [a], h, _ => exact List.singleton_perm.mp h
  | a :: b :: t, _, hl => simp at hl

/-- Dict lookup is invariant under permutation when keys are unique. -/
theorem dictGet_eq_of_perm {l1 l2 : Filters} (h : l1.Perm l2)
    (hnd : (l1.map Prod.fst).Nodup) (k : String) :
    dictGet l1 k = dictGet l2 k := by
  unfold dictGet
  rw [find?_eq_head_filter, find?_eq_head_filter,
    perm_length_le_one_eq (h.filter (fun p => p.1 == k))
      (filter_keyEq_length_le_one hnd k)]

/-- `Scraper._filtstr` depends only on the key-value pairs, not on dict
insertion order. -/
theorem filtstr_perm {l1 l2 : Filters} (h : l1.Perm l2)
    (hnd : (l1.map Prod.fst).Nodup) : filtstr l1 = filtstr l2 := by
  unfold filtstr
  have hkeys : (l1.map Prod.fst).Perm (l2.map Prod.fst) := h.map Prod.fst
  have hsorted :
      (l1.map Prod.fst).insertionSort (fun a b => strLe a b = true) =
        (l2.map Prod.fst).insertionSort (fun a b => strLe a b = true) := by
    exact List.eq_of_perm_of_sorted
      ((List.perm_insertionSort _ _).trans
        (hkeys.trans (List.perm_insertionSort _ _).symm))
      (List.sorted_insertionSort _ _) (List.sorted_insertionSort _ _)
  rw [hsorted]
  congr 1
  apply List.map_congr_left
  intro k _
  rw [dictGet_eq_of_perm h hnd k]

/-! ## Claim theorems -/

/-- C9 (code evidence): `Scraper.query` compares
`self.response_format` — the dict `{"format": response_format}` stored by
`__init__` — against the string `"json"`, and in Python a dict never
equals a string, so for every configured format (including `"json"`) and
every transport response (including an invalid-credentials error body) the
JSON branch is dead: `query` performs zero credential refreshes, never
retries, and always returns the raw `self.get` response. -/
theorem c9_query_json_branch_dead (response_format : String)
    (first second : JsonResp) (rawBody : String) :
    query response_format first second rawBody =
      (QueryOutcome.rawResponse rawBody, 0) := rfl

/-- C4 (counterexample): for the pair ("nba", 2019), absent from the
lookup table, `Scraper._game_key` silently evaluates to `None` — no
exception is raised. -/
theorem c4_counterexample : game_key "nba" 2019 = Except.ok none := rfl

/-- C4 (amended): an unknown sport is a hard error (`.get` on the outer
dict returns `None` and the chained `.get` raises `AttributeError`), but a
known sport with an unknown season silently yields `None`; known pairs
resolve to their table entries. -/
theorem c4_game_key_partial_defaulting :
    (∀ sport season, sport ≠ "nba" → sport ≠ "nfl" →
        game_key sport season = Except.error Err.attributeError) ∧
    game_key "nba" 2019 = Except.ok none ∧
    game_key "nfl" 2017 = Except.ok none ∧
    game_key "nba" 2017 = Except.ok (some 375) ∧
    game_key "nba" 2018 = Except.ok (some 385) ∧
    game_key "nfl" 2018 = Except.ok (some 380) := by
  refine ⟨?_, rfl, rfl, rfl, rfl, rfl⟩
  intro sport season h1 h2
  have e1 : ("nba" == sport) = false := beq_eq_false_iff_ne.mpr (Ne.symm h1)
  have e2 : ("nfl" == sport) = false := beq_eq_false_iff_ne.mpr (Ne.symm h2)
  unfold game_key sportGet game_key_d
  simp [List.find?, e1, e2]

/-- C4 (witness for the amended theorem's quantified conjunct). -/
theorem c4_witness : game_key "mlb" 2018 = Except.error Err.attributeError :=
  c4_game_key_partial_defaulting.1 "mlb" 2018 (by decide) (by decide)

/-- C10 (counterexample): the roster URL ends with the literal
`;date={roster_date}` placeholder — whose length is 19, not 11 as the
claim states — and the supplied date does not replace it. -/
theorem c10_counterexample :
    roster "459.l.1.t.2" "players" (some "2019-10-22") =
      Except.ok "https://fantasysports.yahooapis.com/fantasy/v2/team/459.l.1.t.2/roster/players;date=\x7broster_date\x7d" ∧
    (";date=\x7broster_date\x7d").length = 19 := by
  constructor
  · rfl
  · decide

/-- C10 (amended): for every team key and every non-empty roster date, the
roster URL is the base roster path followed by the literal 19-character
text `;date={roster_date}` (the unsubstituted placeholder — the format
call lacks the `f` prefix); the right-hand side does not mention the
supplied date, so the URL is identical for all non-empty dates. -/
theorem c10_roster_literal_placeholder (tk d : String) (hd : d ≠ "") :
    roster tk "players" (some d) =
      Except.ok (url "team" ++ "/" ++ tk ++ "/roster/" ++ "players" ++
        ";date=\x7broster_date\x7d") := by
  unfold roster
  have hde : d.isEmpty = false := by
    cases h : d.isEmpty
    · rfl
    · exact absurd ((String.isEmpty_iff d).mp h) hd
  simp [roster_subresources, truthyOptStr, hde]

/-- C10 (witness): the amended theorem applied at a concrete team key and
date. -/
theorem c10_witness :
    roster "380.l.49127.t.4" "players" (some "2018-11-01") =
      Except.ok (url "team" ++ "/" ++ "380.l.49127.t.4" ++ "/roster/" ++
        "players" ++ ";date=\x7broster_date\x7d") :=
  c10_roster_literal_placeholder "380.l.49127.t.4" "2018-11-01" (by decide)

/-- C3 (counterexample): supplying two addressing modes at once — a league
id and an explicit team-key list — does not raise; `Scraper.teams`
silently uses the league id and returns the league-addressed URL. -/
theorem c3_counterexample :
    teams (some 380) (some 49127) (some ["380.l.49127.t.1"]) false "metadata" =
      Except.ok "https://fantasysports.yahooapis.com/fantasy/v2/league/380.l.49127/teams/metadata" := rfl

/-- C3 (amended): `Scraper.teams` raises only when zero addressing modes
are supplied (given a valid sub-resource); when several are supplied it
silently picks the first truthy one in the fixed order league_id,
team_keys, my_team — supplying team_keys or my_team alongside a truthy
league_id never changes the result.  `Scraper.players` with zero
addressing modes fails with `UnboundLocalError` (the local `url` is never
assigned), not with an addressing-validation error. -/
theorem c3_addressing_modes :
    (∀ gk sub, team_subresources.contains sub = true →
        teams gk none none false sub =
          Except.error
            (Err.valueError "need to specify league_id or team_keys or my_team")) ∧
    (∀ gk lid tks mt sub, lid ≠ 0 →
        teams gk (some lid) tks mt sub = teams gk (some lid) none false sub) ∧
    (∀ gk sub filters,
        players gk none none none none none sub filters =
          Except.error Err.unboundLocal) := by
  refine ⟨?_, ?_, ?_⟩
  · intro gk sub hsub
    unfold teams
    simp [hsub, truthyOptInt, truthyOptList]
    simpa using hsub
  · intro gk lid tks mt sub hlid
    have ht : truthyOptInt (some lid) = true := by
      simp [truthyOptInt, bne_iff_ne, hlid]
    unfold teams
    simp [ht]
  · intro gk sub filters
    unfold players
    simp [truthyOptInt, truthyOptList, truthyOptStr]

/-- C3 (witness): the amended theorem applied concretely — zero modes
raise for `teams`, a duplicated mode pair resolves to the league mode, and
`players` with zero modes hits the unbound local. -/
theorem c3_witness :
    teams (some 380) none none false "metadata" =
      Except.error
        (Err.valueError "need to specify league_id or team_keys or my_team") ∧
    teams (some 380) (some 49127) (some ["a.t.1"]) true "stats" =
      teams (some 380) (some 49127) none false "stats" ∧
    players (some 380) none none none none none "metadata" none =
      Except.error Err.unboundLocal :=
  ⟨c3_addressing_modes.1 (some 380) "metadata" (by decide),
   c3_addressing_modes.2.1 (some 380) 49127 (some ["a.t.1"]) true "stats" (by decide),
   c3_addressing_modes.2.2 (some 380) "metadata" none⟩

/-- C1 (counterexample): `Scraper.players` given a filter dict whose only
key `bogus` is outside `players_filters` does not raise: the filter is
silently dropped (the serialized filter string stays empty) and the URL is
built and queried. -/
theorem c1_counterexample :
    players (some 380) (some 49127) none none none none "metadata"
        (some [("bogus", "1")]) =
      Except.ok "https://fantasysports.yahooapis.com/fantasy/v2/league/380.l.49127/players;/metadata" := rfl

/-- C1 (amended): a foreign filter key makes `Scraper.games` and
`Scraper.transactions` raise their filter `ValueError` before any query,
regardless of how many valid keys accompany it; `Scraper.players`,
however, silently ignores the entire filter mapping — its result with a
rejected filter dict equals its result with no filters at all. -/
theorem c1_invalid_filter_handling :
    (∀ gk sub f keys, games_subresources.contains sub = true → f ≠ [] →
        keysSubset f games_filters = false →
        games gk sub (some f) keys =
          Except.error (Err.valueError "games invalid filters")) ∧
    (∀ gk lid sub f, transaction_subresources.contains sub = true → f ≠ [] →
        keysSubset f transaction_filters = false →
        transactions gk lid sub (some f) =
          Except.error (Err.valueError "games invalid filters")) ∧
    (∀ gk lid lids tk tks pks sub f, keysSubset f players_filters = false →
        players gk lid lids tk tks pks sub (some f) =
          players gk lid lids tk tks pks sub none) := by
  refine ⟨?_, ?_, ?_⟩
  · intro gk sub f keys hsub hne hbad
    have hf : f.isEmpty = false := by
      cases f
      · exact absurd rfl hne
      · rfl
    unfold games
    simp [hsub, truthyOptList, hf, hbad]
    simpa using hsub
  · intro gk lid sub f hsub hne hbad
    have hf : f.isEmpty = false := by
      cases f
      · exact absurd rfl hne
      · rfl
    unfold transactions
    simp [hsub, truthyOptList, hf, hbad]
    simpa using hsub
  · intro gk lid lids tk tks pks sub f hbad
    unfold players
    simp [hbad]

/-- C1 (witness): the amended theorem applied concretely — a filter dict
holding the valid key `seasons` (resp. `count`) next to the foreign key
`bogus` still raises for `games` and `transactions`, while `players`
treats it like no filters. -/
theorem c1_witness :
    games (some 380) "metadata" (some [("seasons", "2018"), ("bogus", "1")]) none =
      Except.error (Err.valueError "games invalid filters") ∧
    transactions (some 380) 49127 "metadata" (some [("count", "5"), ("bogus", "1")]) =
      Except.error (Err.valueError "games invalid filters") ∧
    players (some 380) (some 49127) none none none none "metadata"
        (some [("count", "5"), ("bogus", "1")]) =
      players (some 380) (some 49127) none none none none "metadata" none :=
  ⟨c1_invalid_filter_handling.1 (some 380) "metadata"
      [("seasons", "2018"), ("bogus", "1")] none (by decide) (by decide) (by decide),
   c1_invalid_filter_handling.2.1 (some 380) 49127 "metadata"
      [("count", "5"), ("bogus", "1")] (by decide) (by decide) (by decide),
   c1_invalid_filter_handling.2.2 (some 380) (some 49127) none none none none
      "metadata" [("count", "5"), ("bogus", "1")] (by decide)⟩

/-- C5 (confirmed): `Scraper._filtstr` is a deterministic function of the
filter dict's contents — two dicts holding the same key-value pairs (in
any insertion order, keys unique) serialize to the identical string — and
the serialized form joins `k=v` pairs with commas, keys ascending, as on
the spec's example. -/
theorem c5_filtstr_deterministic :
    (∀ l1 l2 : Filters, l1.Perm l2 → (l1.map Prod.fst).Nodup →
        filtstr l1 = filtstr l2) ∧
    filtstr [("b", "2"), ("a", "1")] = "a=1,b=2" ∧
    filtstr [("a", "1"), ("b", "2")] = "a=1,b=2" :=
  ⟨fun _ _ h hnd => filtstr_perm h hnd, by decide, by decide⟩

/-- C5 (witness): the two example dicts are permutations with unique keys
and serialize identically. -/
theorem c5_witness :
    filtstr [("b", "2"), ("a", "1")] = filtstr [("a", "1"), ("b", "2")] :=
  c5_filtstr_deterministic.1 [("b", "2"), ("a", "1")] [("a", "1"), ("b", "2")]
    (by decide) (by decide)

/-- C6 (counterexample): the games collection with the valid sub-resource
`teams` and a valid non-empty filter mapping composes a URL whose final
path segment is `games;seasons=2018` — the sub-resource does not appear in
it at all. -/
theorem c6_counterexample :
    games (some 380) "teams" (some [("seasons", "2018")]) none =
      Except.ok "https://fantasysports.yahooapis.com/fantasy/v2/games;seasons=2018" ∧
    lastSegment "https://fantasysports.yahooapis.com/fantasy/v2/games;seasons=2018" =
      "games;seasons=2018" ∧
    occursIn "teams" "games;seasons=2018" = false := by
  refine ⟨by decide, by decide, by decide⟩

/-- C6 (amended): for every valid sub-resource of the `game` resource and
of the `games` collection without filters, the composed URL's final path
segment begins with the sub-resource name; but whenever `games` receives a
truthy filter mapping passing its whitelist, the URL is exactly
`{base}/games;{filters}` — the requested sub-resource is dropped. -/
theorem c6_final_segment_except_filtered_games :
    (∀ sub ∈ game_subresources,
        okLastStartsWith (game (some 380) sub (some ["380.l.1"])) sub = true) ∧
    (∀ sub ∈ games_subresources,
        okLastStartsWith (games (some 380) sub none (some ["380.l.1"])) sub = true) ∧
    (∀ gk sub f keys, games_subresources.contains sub = true → f ≠ [] →
        keysSubset f games_filters = true →
        games gk sub (some f) keys =
          Except.ok (url "games" ++ ";" ++ filtstr f)) := by
  refine ⟨by decide, by decide, ?_⟩
  intro gk sub f keys hsub hne hgood
  have hf : f.isEmpty = false := by
    cases f
    · exact absurd rfl hne
    · rfl
  unfold games
  simp [hsub, truthyOptList, hf, hgood]
  simpa using hsub

/-- C6 (witness): the filtered-games conjunct applied at a concrete filter
mapping. -/
theorem c6_witness :
    games (some 380) "teams" (some [("seasons", "2018"), ("game_codes", "nba")])
        none =
      Except.ok (url "games" ++ ";" ++
        filtstr [("seasons", "2018"), ("game_codes", "nba")]) :=
  c6_final_segment_except_filtered_games.2.2 (some 380) "teams"
    [("seasons", "2018"), ("game_codes", "nba")] none (by decide) (by decide)
    (by decide)

/-- C2 (counterexample): `Scraper.league_free_agents` and `Scraper.players`
accept the sub-resource name `bogus`, which belongs to no family's valid
list: no error is raised and the URL embedding `bogus` is built and
queried. -/
theorem c2_counterexample :
    league_subresources.contains "bogus" = false ∧
    player_subresources.contains "bogus" = false ∧
    league_free_agents_url (some 380) 49127 0 "bogus" "A" "AR" "lastmonth" =
      "https://fantasysports.yahooapis.com/fantasy/v2/league/380.l.49127/bogus;status=A;sort=AR;sort_type=lastmonth;start=0" ∧
    players (some 380) (some 49127) none none none none "bogus" none =
      Except.ok "https://fantasysports.yahooapis.com/fantasy/v2/league/380.l.49127/players;/bogus" := by
  refine ⟨by decide, by decide, by decide, by decide⟩

/-- C2 (amended): sub-resource validation is not uniform.  `game`, `games`,
`teams`, `transactions` and `roster` reject any name outside their family
list with a `ValueError` before composing a URL; `league_free_agents`,
`players` (given an addressing mode), `user` and `users` perform no
sub-resource validation and embed any supplied name into the URL. -/
theorem c2_subresource_validation_not_uniform :
    (∀ gk sub keys, game_subresources.contains sub = false →
        game gk sub keys =
          Except.error (Err.valueError "invalid game subresource")) ∧
    (∀ gk sub filters keys, games_subresources.contains sub = false →
        games gk sub filters keys =
          Except.error (Err.valueError "invalid game subresource")) ∧
    (∀ gk lid tks mt sub, team_subresources.contains sub = false →
        teams gk lid tks mt sub =
          Except.error (Err.valueError "invalid teams subresource")) ∧
    (∀ gk lid sub filters, transaction_subresources.contains sub = false →
        transactions gk lid sub filters =
          Except.error (Err.valueError "invalid transactions subresource")) ∧
    (∀ tk sub rd, roster_subresources.contains sub = false →
        roster tk sub rd =
          Except.error (Err.valueError "invalid roster subresource")) ∧
    (∀ gk lid start sub status sortp stype,
        league_free_agents_url gk lid start sub status sortp stype =
          url "league" ++ "/" ++ league_key gk lid ++ "/" ++ sub ++
            ";status=" ++ status ++ ";sort=" ++ sortp ++ ";sort_type=" ++
            stype ++ ";start=" ++ toString start) ∧
    (∀ gk lid sub, lid ≠ 0 →
        players gk (some lid) none none none none sub none =
          Except.ok (url "league" ++ "/" ++ league_key gk lid ++ "/players;" ++
            "" ++ "/" ++ sub)) ∧
    (∀ gk sub, user_url gk sub =
        "https://fantasysports.yahooapis.com/fantasy/v2/users;use_login=1/games;game_keys=" ++
          pyStrOptInt gk ++ "/" ++ sub) ∧
    (∀ sub, users_url sub = url "users" ++ ";use_login=1/" ++ sub) := by
  refine ⟨?_, ?_, ?_, ?_, ?_, fun _ _ _ _ _ _ _ => rfl, ?_, fun _ _ => rfl,
    fun _ => rfl⟩
  · intro gk sub keys hsub
    have hm : sub ∉ game_subresources := by simpa using hsub
    unfold game
    simp [hsub, hm]
  · intro gk sub filters keys hsub
    have hm : sub ∉ games_subresources := by simpa using hsub
    unfold games
    simp [hsub, hm]
  · intro gk lid tks mt sub hsub
    have hm : sub ∉ team_subresources := by simpa using hsub
    unfold teams
    simp [hsub, hm]
  · intro gk lid sub filters hsub
    have hm : sub ∉ transaction_subresources := by simpa using hsub
    unfold transactions
    simp [hsub, hm]
  · intro tk sub rd hsub
    have hm : sub ∉ roster_subresources := by simpa using hsub
    unfold roster
    simp [hsub, hm]
  · intro gk lid sub hlid
    have ht : truthyOptInt (some lid) = true := by
      simp [truthyOptInt, bne_iff_ne, hlid]
    unfold players
    simp [ht]

/-- C2 (witness): the amended theorem applied at the foreign name `bogus`
for a validated family and an unvalidated one. -/
theorem c2_witness :
    teams (some 380) (some 49127) none false "bogus" =
      Except.error (Err.valueError "invalid teams subresource") ∧
    players (some 380) (some 49127) none none none none "bogus" none =
      Except.ok (url "league" ++ "/" ++ league_key (some 380) 49127 ++
        "/players;" ++ "" ++ "/" ++ "bogus") :=
  ⟨c2_subresource_validation_not_uniform.2.2.1 (some 380) (some 49127) none
      false "bogus" (by decide),
   c2_subresource_validation_not_uniform.2.2.2.2.2.2.1 (some 380) 49127 "bogus"
      (by decide)⟩

/-! ## Helper lemmas for the parser theorems -/

/-- Bind on a successful `Except` value. -/
theorem except_bind_ok {ε α β : Type} (a : α) (f : α → Except ε β) :
    (Except.ok a >>= f) = f a := rfl

/-- Bind on a failed `Except` value. -/
theorem except_bind_error {ε α β : Type} (e : ε) (f : α → Except ε β) :
    ((Except.error e : Except ε α) >>= f) = Except.error e := rfl

/-- A Python loop whose body raises on some processed item makes the whole
call raise. -/
theorem exceptMapM_error_of_mem {α β : Type} (f : α → Except Err β) {x : α} :
    ∀ {l : List α}, x ∈ l → (∃ e, f x = Except.error e) →
      ∃ e, exceptMapM f l = Except.error e := by
  intro l hx hfe
  induction l with
  | nil => cases hx
  | cons a t ih =>
      cases hfa : f a with
      | error e => exact ⟨e, by simp [exceptMapM, hfa]⟩
      | ok y =>
          rcases List.mem_cons.mp hx with rfl | hxt
          · rcases hfe with ⟨e, he⟩
            rw [he] at hfa
            cases hfa
          · rcases ih hxt with ⟨e, he⟩
            exact ⟨e, by simp [exceptMapM, hfa, he]⟩

/-- Extracting the texts of constructed position elements succeeds and
returns the texts. -/
theorem exceptMapM_positions (pos : List String) :
    exceptMapM (fun p => getTextOr p.text Err.typeError)
      (pos.map (fun s => Element.mk "position" (some s) [])) =
      Except.ok pos := by
  induction pos with
  | nil => rfl
  | cons s t ih =>
      rw [List.map_cons, exceptMapM, ih]
      rfl

/-- Constructed position elements all carry the `position` tag. -/
theorem filter_positions_self (pos : List String) :
    ((pos.map (fun s => Element.mk "position" (some s) [])).filter
      (fun c => c.tag == "position")) =
      pos.map (fun s => Element.mk "position" (some s) []) := by
  induction pos with
  | nil => rfl
  | cons s t ih => simp [Element.tag, ih]

/-- Constructed position elements never carry the `player` tag. -/
theorem filter_positions_player (pos : List String) :
    ((pos.map (fun s => Element.mk "position" (some s) [])).filter
      (fun c => c.tag == "player")) = [] := by
  induction pos with
  | nil => rfl
  | cons s t ih => simp [Element.tag, ih]

/-- Constructed position elements are childless, so flattening them adds
no further descendants. -/
theorem descList_positions (pos : List String) :
    descList (pos.map (fun s => Element.mk "position" (some s) [])) =
      pos.map (fun s => Element.mk "position" (some s) []) := by
  induction pos with
  | nil => rfl
  | cons s t ih => simp [descList, Element.descendants, ih]

/-- Dict assignment with a fresh key appends the pair. -/
theorem recordSet_not_mem (r : Record) (k : String) (v : Option String)
    (h : k ∉ r.map Prod.fst) : recordSet r k v = r ++ [(k, v)] := by
  unfold recordSet
  have hany : r.any (fun p => p.1 == k) = false := by
    apply List.any_eq_false.mpr
    intro p hp
    simp only [beq_iff_eq]
    intro hpk
    exact h (hpk ▸ List.mem_map_of_mem Prod.fst hp)
  simp [hany]

/-- The descendants of a fixture player, in document order. -/
theorem descendants_mkPlayer (pk full abbr : String) (pos : List String)
    (sts : List Element) :
    (mkPlayer pk full abbr pos sts).descendants =
      Element.mk "player_key" (some pk) [] ::
      Element.mk "name" none [Element.mk "full" (some full) []] ::
      Element.mk "full" (some full) [] ::
      Element.mk "eligible_positions" none
        (pos.map (fun s => Element.mk "position" (some s) [])) ::
      ((pos.map (fun s => Element.mk "position" (some s) [])) ++
        (Element.mk "editorial_team_abbr" (some abbr) [] ::
         Element.mk "player_stats" none [Element.mk "stats" none sts] ::
         Element.mk "stats" none sts ::
         descList sts)) := by
  simp [mkPlayer, Element.descendants, descList, descList_positions]

/-- No element of a forest free of a tag survives filtering for it. -/
theorem filter_descList_no_tag (t : String) : ∀ l : List Element,
    (∀ st ∈ l, subtreeHasTag st t = false) →
    (descList l).filter (fun d => d.tag == t) = [] := by
  intro l
  induction l with
  | nil => intro _; rfl
  | cons st rest ih =>
      intro h
      have hst := h st (List.mem_cons_self st rest)
      unfold subtreeHasTag at hst
      rw [Bool.or_eq_false_iff] at hst
      have htag : (st.tag == t) = false := hst.1
      have hdesc : st.descendants.filter (fun d => d.tag == t) = [] := by
        apply List.filter_eq_nil_iff.mpr
        intro d hd
        have := List.any_eq_false.mp hst.2 d hd
        simpa using this
      have hrest := ih (fun x hx => h x (List.mem_cons_of_mem st hx))
      simp [descList, List.filter_append, List.filter_cons, htag, hdesc, hrest]

/-- In the single-player fixture document, `.//player` matches exactly the
fixture player, provided no stat subtree reuses the `player` tag. -/
theorem findallTag_mkDoc (pk full abbr : String) (pos : List String)
    (sts : List Element)
    (h0 : ∀ st ∈ sts, subtreeHasTag st "player" = false) :
    findallTag (mkDoc (mkPlayer pk full abbr pos sts)) "player" =
      [mkPlayer pk full abbr pos sts] := by
  unfold findallTag mkDoc
  rw [show (Element.mk "fantasy_content" none [Element.mk "league" none
      [Element.mk "players" none [mkPlayer pk full abbr pos sts]]]).descendants =
      Element.mk "league" none
        [Element.mk "players" none [mkPlayer pk full abbr pos sts]] ::
      Element.mk "players" none [mkPlayer pk full abbr pos sts] ::
      mkPlayer pk full abbr pos sts ::
      (mkPlayer pk full abbr pos sts).descendants from by
    simp [Element.descendants, descList]]
  rw [descendants_mkPlayer]
  have hsts := filter_descList_no_tag "player" sts h0
  rw [List.filter_cons_of_neg (by simp [Element.tag]),
    List.filter_cons_of_neg (by simp [Element.tag]),
    List.filter_cons_of_pos (by simp [mkPlayer, Element.tag]),
    List.filter_cons_of_neg (by simp [Element.tag]),
    List.filter_cons_of_neg (by simp [Element.tag]),
    List.filter_cons_of_neg (by simp [Element.tag]),
    List.filter_cons_of_neg (by simp [Element.tag]),
    List.filter_append, filter_positions_player,
    List.filter_cons_of_neg (by simp [Element.tag]),
    List.filter_cons_of_neg (by simp [Element.tag]),
    List.filter_cons_of_neg (by simp [Element.tag]),
    hsts]
  simp

/-- The stats block of a fixture player is found at its fixed path. -/
theorem findDeepChild_mkPlayer (pk full abbr : String) (pos : List String)
    (sts : List Element) :
    findDeepChild (mkPlayer pk full abbr pos sts) "player_stats" "stats" =
      some (Element.mk "stats" none sts) := by
  have hpos : ((pos.map (fun s => Element.mk "position" (some s) [])).filter
      (fun d => d.tag == "player_stats")) = [] := by
    induction pos with
    | nil => rfl
    | cons s t ih => simp [Element.tag, ih]
  unfold findDeepChild
  rw [descendants_mkPlayer]
  rw [List.filter_cons_of_neg (by simp [Element.tag]),
    List.filter_cons_of_neg (by simp [Element.tag]),
    List.filter_cons_of_neg (by simp [Element.tag]),
    List.filter_cons_of_neg (by simp [Element.tag]),
    List.filter_append, hpos,
    List.filter_cons_of_neg (by simp [Element.tag]),
    List.filter_cons_of_pos (by simp [Element.tag]),
    List.filter_cons_of_neg (by simp [Element.tag])]
  simp [Element.children, Element.tag]

/-- The identity fields of a fixture player parse to the four expected
record entries. -/
theorem parsePlayerIdentity_mk (pk full abbr : String) (pos : List String)
    (sts : List Element) :
    parsePlayerIdentity (mkPlayer pk full abbr pos sts) =
      Except.ok [("player_key", some pk), ("player_name", some full),
        ("eligible_positions", some (String.intercalate ", " pos)),
        ("team", some (pyUpper abbr))] := by
  have step1 : parsePlayerIdentity (mkPlayer pk full abbr pos sts) =
      (exceptMapM (fun p => getTextOr p.text Err.typeError)
        ((pos.map (fun s => Element.mk "position" (some s) [])).filter
          (fun c => c.tag == "position"))) >>= (fun posTexts =>
        Except.ok [("player_key", some pk), ("player_name", some full),
          ("eligible_positions", some (String.intercalate ", " posTexts)),
          ("team", some (pyUpper abbr))]) := rfl
  rw [step1, filter_positions_self, exceptMapM_positions]
  rfl

/-- A well-formed stat child has a found `stat_id` element with numeric
text. -/
theorem wfStat_components {st : Element} (h : wfStat st = true) :
    ∃ sid el txt, findChild st "stat_id" = some el ∧ el.text = some txt ∧
      pyInt txt = some sid ∧ statIdOf st = some sid := by
  unfold wfStat at h
  cases hsid : statIdOf st with
  | none => rw [hsid] at h; cases h
  | some sid =>
      have hcomp : ∃ el txt, findChild st "stat_id" = some el ∧
          el.text = some txt ∧ pyInt txt = some sid := by
        unfold statIdOf at hsid
        cases hel : findChild st "stat_id" with
        | none => rw [hel] at hsid; cases hsid
        | some el =>
            rw [hel] at hsid
            simp only [Option.some_bind] at hsid
            cases htxt : el.text with
            | none => rw [htxt] at hsid; cases hsid
            | some txt =>
                rw [htxt] at hsid
                simp only [Option.some_bind] at hsid
                exact ⟨el, txt, rfl, htxt, hsid⟩
      rcases hcomp with ⟨el, txt, hel, htxt, hpy⟩
      exact ⟨sid, el, txt, hel, htxt, hpy, rfl⟩

/-- A well-formed stat child with a catalog-resolved name has a `value`
element. -/
theorem wfStat_value {st : Element} {sid : Int} {nm : String}
    (h : wfStat st = true) (hsid : statIdOf st = some sid)
    (hnm : stat_name sid = some nm) :
    ∃ vEl, findChild st "value" = some vEl := by
  have h2 : (!(stat_name sid).isSome || (findChild st "value").isSome) = true := by
    unfold wfStat at h
    rw [hsid] at h
    exact h
  rw [hnm] at h2
  simp only [Option.isSome_some, Bool.not_true, Bool.false_or] at h2
  exact Option.isSome_iff_exists.mp h2

/-- The catalog name resolved for any stat child is one of the ten fixed
stat names. -/
theorem resolvedName_mem_catalog (st : Element) (nm : String)
    (h : resolvedName st = some nm) :
    nm ∈ ["games_played", "fgp", "ftm", "tpm", "pts", "reb", "ast", "stl",
      "blk", "tov"] := by
  unfold resolvedName at h
  cases hsid : statIdOf st with
  | none => rw [hsid] at h; cases h
  | some sid =>
      rw [hsid] at h
      simp only [Option.some_bind] at h
      unfold stat_name at h
      cases hf : stat_ids.find? (fun p => p.1 == sid) with
      | none => rw [hf] at h; cases h
      | some pr =>
          rw [hf] at h
          have hpr : pr.2 = nm := by simpa using h
          have hmem := List.mem_of_find?_eq_some hf
          subst hpr
          fin_cases hmem <;> simp

/-- One well-formed stat child processed by the stats loop: a known id
appends the resolved field with the verbatim value text, an unknown id
leaves the record unchanged, and no error is raised. -/
theorem statStep_wf (acc : Record) (st : Element) (hwf : wfStat st = true)
    (hfresh : ∀ nm, resolvedName st = some nm → nm ∉ acc.map Prod.fst) :
    statStep acc st =
      Except.ok (match statProj st with
        | some f => acc ++ [f]
        | none => acc) := by
  rcases wfStat_components hwf with ⟨sid, el, txt, hel, htxt, hpy, hsid⟩
  have hstep0 : statStep acc st =
      (match stat_name sid with
        | some nm => do
            let vEl ← getEl (findChild st "value")
            pure (recordSet acc nm vEl.text)
        | none => pure acc) := by
    unfold statStep
    rw [hel]
    simp only [getEl, except_bind_ok]
    rw [htxt]
    simp only [getTextOr, except_bind_ok]
    rw [hpy]
  cases hnm : stat_name sid with
  | none =>
      have hproj : statProj st = none := by
        simp [statProj, hsid, hnm]
      rw [hstep0, hnm, hproj]
      rfl
  | some nm =>
      rcases wfStat_value hwf hsid hnm with ⟨vEl, hvel⟩
      have hres : resolvedName st = some nm := by
        simp [resolvedName, hsid, hnm]
      have hproj : statProj st = some (nm, vEl.text) := by
        simp [statProj, hsid, hnm, hvel]
      rw [hstep0, hnm, hproj]
      simp only [getEl, hvel, except_bind_ok]
      rw [recordSet_not_mem acc nm vEl.text (hfresh nm hres)]
      rfl

/-- The stats loop over well-formed stat children appends exactly the
catalog-resolved fields, in document order, and never fails, provided the
resolved names are fresh and mutually distinct. -/
theorem exceptFoldl_statStep : ∀ (sts : List Element) (acc : Record),
    (∀ st ∈ sts, wfStat st = true) →
    ((acc.map Prod.fst) ++ sts.filterMap resolvedName).Nodup →
    exceptFoldl statStep acc sts = Except.ok (acc ++ sts.filterMap statProj)
  | [], acc, _, _ => by simp [exceptFoldl]
  | st :: t, acc, hwf, hnd => by
      have hwfst := hwf st (List.mem_cons_self st t)
      cases hres : resolvedName st with
      | none =>
          have hproj : statProj st = none := by
            unfold statProj
            unfold resolvedName at hres
            cases hsid : statIdOf st with
            | none => simp [hsid]
            | some sid =>
                rw [hsid] at hres
                simp only [Option.some_bind] at hres
                simp [hsid, hres]
          have hstep := statStep_wf acc st hwfst
            (fun nm hnm => by rw [hres] at hnm; cases hnm)
          rw [hproj] at hstep
          have hnd2 : ((acc.map Prod.fst) ++ t.filterMap resolvedName).Nodup := by
            rw [List.filterMap_cons_none hres] at hnd
            exact hnd
          have hstep2 : statStep acc st = Except.ok acc := by rw [hstep]
          rw [exceptFoldl, hstep2]
          show exceptFoldl statStep acc t = _
          rw [exceptFoldl_statStep t acc
            (fun x hx => hwf x (List.mem_cons_of_mem st hx)) hnd2]
          rw [List.filterMap_cons_none hproj]
      | some nm =>
          have hfresh : nm ∉ acc.map Prod.fst := by
            rw [List.filterMap_cons_some hres] at hnd
            have hdisj := (List.nodup_append.mp hnd).2.2
            intro hmem
            exact hdisj hmem (List.mem_cons_self nm _)
          have hstep := statStep_wf acc st hwfst
            (fun nm2 hnm2 => by
              rw [hres] at hnm2
              cases hnm2
              exact hfresh)
          rcases wfStat_components hwfst with ⟨sid, el, txt, hel, htxt, hpy, hsid⟩
          have hnmres : stat_name sid = some nm := by
            unfold resolvedName at hres
            rw [hsid] at hres
            simpa using hres
          rcases wfStat_value hwfst hsid hnmres with ⟨vEl, hvel⟩
          have hproj : statProj st = some (nm, vEl.text) := by
            simp [statProj, hsid, hnmres, hvel]
          rw [hproj] at hstep
          have hnd2 : (((acc ++ [(nm, vEl.text)]).map Prod.fst) ++
              t.filterMap resolvedName).Nodup := by
            rw [List.filterMap_cons_some hres] at hnd
            rw [List.map_append]
            rw [List.append_assoc]
            simpa using hnd
          have hstep2 : statStep acc st =
              Except.ok (acc ++ [(nm, vEl.text)]) := by rw [hstep]
          rw [exceptFoldl, hstep2]
          show exceptFoldl statStep (acc ++ [(nm, vEl.text)]) t = _
          rw [exceptFoldl_statStep t (acc ++ [(nm, vEl.text)])
            (fun x hx => hwf x (List.mem_cons_of_mem st hx)) hnd2]
          rw [List.filterMap_cons_some hproj]
          rw [List.append_assoc]
          rfl

/-- C7 (confirmed): for every parsed player whose stats block holds
well-formed stat children (numeric ids; a value element whenever the id is
in the catalog; distinct resolved names), `Parser.player_stats` succeeds
and produces the identity fields followed by exactly one field per stat
child whose id is in the StatCatalog — named after the resolved stat name
and holding the value text verbatim — while stat children with ids outside
the catalog contribute nothing and raise nothing. -/
theorem c7_stat_remapping (pk full abbr : String) (pos : List String)
    (sts : List Element)
    (hplayer : ∀ st ∈ sts, subtreeHasTag st "player" = false)
    (hwf : ∀ st ∈ sts, wfStat st = true)
    (hnd : (sts.filterMap resolvedName).Nodup) :
    player_stats_core (mkDoc (mkPlayer pk full abbr pos sts)) =
      Except.ok [[("player_key", some pk), ("player_name", some full),
        ("eligible_positions", some (String.intercalate ", " pos)),
        ("team", some (pyUpper abbr))] ++ sts.filterMap statProj] := by
  have hnd2 : ((([("player_key", some pk), ("player_name", some full),
      ("eligible_positions", some (String.intercalate ", " pos)),
      ("team", some (pyUpper abbr))] : Record).map Prod.fst) ++
      sts.filterMap resolvedName).Nodup := by
    rw [show (([("player_key", some pk), ("player_name", some full),
      ("eligible_positions", some (String.intercalate ", " pos)),
      ("team", some (pyUpper abbr))] : Record).map Prod.fst) =
      ["player_key", "player_name", "eligible_positions", "team"] from rfl]
    rw [List.nodup_append]
    refine ⟨by decide, hnd, ?_⟩
    intro a ha hb
    rcases List.mem_filterMap.mp hb with ⟨st, hst, hres⟩
    have hcat := resolvedName_mem_catalog st a hres
    fin_cases ha <;> exact absurd hcat (by decide)
  have hfold := exceptFoldl_statStep sts _ hwf hnd2
  have hps : parsePlayerPS (mkPlayer pk full abbr pos sts) =
      Except.ok ([("player_key", some pk), ("player_name", some full),
        ("eligible_positions", some (String.intercalate ", " pos)),
        ("team", some (pyUpper abbr))] ++ sts.filterMap statProj) := by
    unfold parsePlayerPS
    rw [parsePlayerIdentity_mk]
    simp only [except_bind_ok]
    rw [findDeepChild_mkPlayer]
    simp only [except_bind_ok]
    exact hfold
  unfold player_stats_core
  rw [findallTag_mkDoc pk full abbr pos sts hplayer]
  rw [exceptMapM, hps]
  rfl

/-- C7 (witness): the spec's fixture — one stat child with id 12 (pts) and
value 24.5, one with id 999 absent from the catalog — projects to a record
holding `pts = 24.5` and no field for id 999; the full record is
explicit. -/
theorem c7_witness :
    player_stats_core (mkDoc (mkPlayer "453.p.1" "Test Player" "bos" ["PG"]
        [mkStat 12 "24.5", mkStat 999 "1"])) =
      Except.ok [[("player_key", some "453.p.1"),
        ("player_name", some "Test Player"),
        ("eligible_positions", some "PG"), ("team", some "BOS"),
        ("pts", some "24.5")]] := by
  have h := c7_stat_remapping "453.p.1" "Test Player" "bos" ["PG"]
    [mkStat 12 "24.5", mkStat 999 "1"] (by decide) (by decide) (by decide)
  rw [h]
  rfl

/-- C8 (confirmed): whenever the document holds a matching player element
missing its mandatory identity path `name/full` (either no `name` child or
a `name` child with no `full` child), the whole `Parser.league_free_agents`
call fails with an error (an `AttributeError`, the spec's
`MissingRequiredField`): the stored result set for the
`league_free_agents` entity kind is left unchanged and no records — in
particular no partial ones — are returned. -/
theorem c8_missing_field_fails_parse (d : ParserData) (root : Element)
    (h : ∃ p ∈ findallTag root "player",
        findChild p "name" = none ∨
        ∃ nmEl, findChild p "name" = some nmEl ∧ findChild nmEl "full" = none) :
    (runLeagueFreeAgents d root).1 = d ∧
    ∃ e, (runLeagueFreeAgents d root).2 = Except.error e := by
  rcases h with ⟨p, hp, hmiss⟩
  have herr : ∃ e, parsePlayerLFA p = Except.error e := by
    unfold parsePlayerLFA parsePlayerIdentity
    cases hpk : findChild p "player_key" with
    | none => exact ⟨Err.attributeError, rfl⟩
    | some pkEl =>
        rcases hmiss with hnm | ⟨nmEl, hnm, hfull⟩
        · exact ⟨Err.attributeError, by rw [hnm]; exact rfl⟩
        · exact ⟨Err.attributeError, by
            simp only [getEl, hnm, hfull, except_bind_ok, except_bind_error]⟩
  have hcore : ∃ e, league_free_agents_core root = Except.error e := by
    unfold league_free_agents_core
    exact exceptMapM_error_of_mem parsePlayerLFA hp herr
  rcases hcore with ⟨e, he⟩
  unfold runLeagueFreeAgents
  rw [he]
  exact ⟨rfl, e, rfl⟩

/-- C8 (witness): a fixture document with one well-formed player and one
player lacking the `name` child makes the whole call fail and leaves the
previously stored result set untouched. -/
theorem c8_witness :
    (runLeagueFreeAgents [("league_free_agents",
        [[("player_key", some "380.p.9")]])] lfaBadDoc).1 =
      [("league_free_agents", [[("player_key", some "380.p.9")]])] ∧
    ∃ e, (runLeagueFreeAgents [("league_free_agents",
        [[("player_key", some "380.p.9")]])] lfaBadDoc).2 = Except.error e :=
  c8_missing_field_fails_parse
    [("league_free_agents", [[("player_key", some "380.p.9")]])] lfaBadDoc
    ⟨namelessPlayer, by
      rw [show findallTag lfaBadDoc "player" =
        [mkPlayer "380.p.1" "Good Player" "mil" ["PG"] [], namelessPlayer]
        from rfl]
      exact List.mem_cons_of_mem _ (List.mem_cons_self _ _),
     Or.inl rfl⟩

end Yahoofsapi
